import Mathlib

set_option maxRecDepth 4000

/-!
Shallow embedding of the QSPI NOR-flash driver in src/src/main.rs
(struct FlashMemory and its impl block).

Modelling choices:
  - The Qspi bus transport is modelled as a trace of transactions
    (Event list) appended to by the blocking primitives, together with a
    response oracle env : Nat -> List Nat giving the bytes the device
    returns for the n-th read transaction.  Bytes are masked to 0..255.
  - The driver state (struct FlashMemory) keeps the qpi_mode flag of the
    source plus the instrumentation fields reads (number of read
    transactions issued so far) and trace.
  - The unbounded busy-wait loop (wait_write_finish) and the write_memory
    loop are given a fuel parameter; Res.fuel means the fuel bound was hit
    (the loop had not finished), Res.crash models a failed assert.
  - usize/u32 arithmetic: MEMORY_PAGE_SIZE - (place & 0xff) and
    place + chunk_size are computed modulo 2^32, matching release-profile
    wrapping on the 32-bit target (in a debug build the same inputs
    overflow-check instead; every divergence proved below crashes or loops
    under both semantics).
-/

inductive QspiWidth where
  | NONE
  | SING
  | QUAD
deriving DecidableEq

structure TransferConfig where
  iwidth : QspiWidth
  awidth : QspiWidth
  dwidth : QspiWidth
  instruction : Nat
  address : Option Nat
  dummy : Nat
deriving DecidableEq

/-- Bus transactions as seen by the Qspi transport. -/
inductive Event where
  | command (cfg : TransferConfig)
  | write (data : List Nat) (cfg : TransferConfig)
  | read (len : Nat) (cfg : TransferConfig)
  | memoryMap (cfg : TransferConfig)
deriving DecidableEq

/-- Driver state: the qpi_mode field of struct FlashMemory plus the
transport instrumentation (read counter and transaction trace). -/
structure FlashMemory where
  qpi_mode : Bool
  reads : Nat
  trace : List Event
deriving DecidableEq

/-- Response oracle: bytes the device answers to the n-th read transaction. -/
abbrev Env := Nat → List Nat

/-- Outcome of a fuelled driver operation: normal return, failed assert
(the source panics), or fuel exhausted before the loop finished. -/
inductive Res (α : Type) where
  | ok (value : α)
  | crash
  | fuel
deriving DecidableEq

def MEMORY_PAGE_SIZE : Nat := 8
def CMD_QUAD_READ : Nat := 0x6B
def CMD_QUAD_WRITE_PG : Nat := 0x32
def CMD_READ_ID : Nat := 0x9F
def CMD_ENABLE_RESET : Nat := 0x66
def CMD_RESET : Nat := 0x99
def CMD_WRITE_ENABLE : Nat := 0x06
def CMD_CHIP_ERASE : Nat := 0xC7
def CMD_SECTOR_ERASE : Nat := 0x20
def CMD_BLOCK_ERASE_32K : Nat := 0x52
def CMD_BLOCK_ERASE_64K : Nat := 0xD8
def CMD_ENTER_QSPI_MODE : Nat := 0x38
def CMD_SET_READ_PARAMETERS : Nat := 0xC0
def CMD_READ_STATUS_REG1 : Nat := 0x05
def CMD_READ_STATUS_REG2 : Nat := 0x35
def CMD_WRITE_STATUS_REG1 : Nat := 0x01
def CMD_WRITE_STATUS_REG2 : Nat := 0x31
def CMD_FAST_READ_QUAD_IO : Nat := 0xEB
def QE_MASK : Nat := 0x02

/-- Modulus 2^32 of the u32/usize arithmetic on the 32-bit target. -/
def U32_MOD : Nat := 4294967296

def blocking_command (cfg : TransferConfig) (s : FlashMemory) : FlashMemory :=
  { s with trace := s.trace ++ [Event.command cfg] }

def blocking_write (data : List Nat) (cfg : TransferConfig) (s : FlashMemory) : FlashMemory :=
  { s with trace := s.trace ++ [Event.write data cfg] }

def blocking_read (env : Env) (len : Nat) (cfg : TransferConfig) (s : FlashMemory) :
    List Nat × FlashMemory :=
  ((List.range len).map (fun i => ((env s.reads).getD i 0) &&& 0xFF),
   { s with reads := s.reads + 1, trace := s.trace ++ [Event.read len cfg] })

def enable_memory_map (cfg : TransferConfig) (s : FlashMemory) : FlashMemory :=
  { s with trace := s.trace ++ [Event.memoryMap cfg] }

/-- First byte of the device answer to the k-th read transaction. -/
def resp_byte (env : Env) (k : Nat) : Nat := ((env k).getD 0 0) &&& 0xFF

/-- Width selection of read_register/write_register: instruction and data
phases both quad when qpi_mode is set, both single otherwise; no address,
no dummy cycles. -/
def register_cfg (qpi_mode : Bool) (instruction : Nat) : TransferConfig :=
  { iwidth := if qpi_mode then QspiWidth.QUAD else QspiWidth.SING
    awidth := QspiWidth.NONE
    dwidth := if qpi_mode then QspiWidth.QUAD else QspiWidth.SING
    instruction := instruction
    address := none
    dummy := 0 }

def read_register (env : Env) (instruction : Nat) (s : FlashMemory) : Nat × FlashMemory :=
  ((blocking_read env 1 (register_cfg s.qpi_mode instruction) s).1.getD 0 0,
   (blocking_read env 1 (register_cfg s.qpi_mode instruction) s).2)

def write_register (instruction : Nat) (value : Nat) (s : FlashMemory) : FlashMemory :=
  blocking_write [value] (register_cfg s.qpi_mode instruction) s

def read_cr (env : Env) (s : FlashMemory) : Nat × FlashMemory :=
  read_register env CMD_READ_STATUS_REG2 s

def write_cr (value : Nat) (s : FlashMemory) : FlashMemory :=
  write_register CMD_WRITE_STATUS_REG2 value s

def read_sr (env : Env) (s : FlashMemory) : Nat × FlashMemory :=
  read_register env CMD_READ_STATUS_REG1 s

def write_sr (value : Nat) (s : FlashMemory) : FlashMemory :=
  write_register CMD_WRITE_STATUS_REG1 value s

def exec_command_cfg (cmd : Nat) : TransferConfig :=
  { iwidth := QspiWidth.SING, awidth := QspiWidth.NONE, dwidth := QspiWidth.NONE,
    instruction := cmd, address := none, dummy := 0 }

def exec_command_4_cfg (cmd : Nat) : TransferConfig :=
  { iwidth := QspiWidth.QUAD, awidth := QspiWidth.NONE, dwidth := QspiWidth.NONE,
    instruction := cmd, address := none, dummy := 0 }

def exec_command (cmd : Nat) (s : FlashMemory) : FlashMemory :=
  blocking_command (exec_command_cfg cmd) s

def exec_command_4 (cmd : Nat) (s : FlashMemory) : FlashMemory :=
  blocking_command (exec_command_4_cfg cmd) s

def write_enable_cfg : TransferConfig := exec_command_cfg CMD_WRITE_ENABLE

def write_enable (s : FlashMemory) : FlashMemory :=
  blocking_command write_enable_cfg s

/-- while (read_sr() & 0x01) != 0 \x7b\x7d -- fuelled; one status read per
iteration, returning as soon as a read comes back with bit 0 clear. -/
def wait_write_finish (env : Env) : Nat → FlashMemory → Res FlashMemory
  | 0, _ => Res.fuel
  | fuel + 1, s =>
    if (read_sr env s).1 &&& 0x01 ≠ 0 then wait_write_finish env fuel (read_sr env s).2
    else Res.ok (read_sr env s).2

def reset_memory (env : Env) (fuel : Nat) (s : FlashMemory) : Res FlashMemory :=
  wait_write_finish env fuel
    (exec_command CMD_RESET
      (exec_command CMD_ENABLE_RESET
        (exec_command_4 CMD_RESET
          (exec_command_4 CMD_ENABLE_RESET s))))

def enable_quad (env : Env) (s : FlashMemory) : FlashMemory :=
  write_sr ((read_sr env (write_cr ((read_cr env s).1 ||| 0x02) (read_cr env s).2)).1 ||| 0x02)
    (read_sr env (write_cr ((read_cr env s).1 ||| 0x02) (read_cr env s).2)).2

/-- cr & !(0x02) on u8 is cr & 0xFD. -/
def disable_quad (env : Env) (s : FlashMemory) : FlashMemory :=
  write_cr ((read_cr env s).1 &&& 0xFD) (read_cr env s).2

def enter_qpi_cmd_cfg : TransferConfig :=
  { iwidth := QspiWidth.SING, awidth := QspiWidth.NONE, dwidth := QspiWidth.NONE,
    instruction := CMD_ENTER_QSPI_MODE, address := none, dummy := 0 }

def set_read_parameters_cfg : TransferConfig :=
  { iwidth := QspiWidth.QUAD, awidth := QspiWidth.NONE, dwidth := QspiWidth.QUAD,
    instruction := CMD_SET_READ_PARAMETERS, address := none, dummy := 0 }

/-- Lines 150-153: read the Configuration Register and set the Quad-Enable
bit only if it is not already set. -/
def qe_checked (env : Env) (s : FlashMemory) : FlashMemory :=
  if (read_cr env s).1 &&& QE_MASK = 0 then
    write_cr ((read_cr env s).1 ||| QE_MASK) (read_cr env s).2
  else (read_cr env s).2

def enter_qpi_mode (env : Env) (s : FlashMemory) : FlashMemory :=
  blocking_write [0x03 <<< 4] set_read_parameters_cfg
    (write_enable { blocking_command enter_qpi_cmd_cfg (qe_checked env s) with qpi_mode := true })

def mm_read_cfg : TransferConfig :=
  { iwidth := QspiWidth.QUAD, awidth := QspiWidth.QUAD, dwidth := QspiWidth.QUAD,
    instruction := CMD_FAST_READ_QUAD_IO, address := some 24, dummy := 8 }

def enable_mm (env : Env) (s : FlashMemory) : FlashMemory :=
  enable_memory_map mm_read_cfg (enter_qpi_mode env s)

def read_id_cfg : TransferConfig :=
  { iwidth := QspiWidth.SING, awidth := QspiWidth.NONE, dwidth := QspiWidth.SING,
    instruction := CMD_READ_ID, address := none, dummy := 0 }

def read_id (env : Env) (s : FlashMemory) : List Nat × FlashMemory :=
  blocking_read env 3 read_id_cfg s

def read_memory_cfg (addr : Nat) : TransferConfig :=
  { iwidth := QspiWidth.SING, awidth := QspiWidth.SING, dwidth := QspiWidth.QUAD,
    instruction := CMD_QUAD_READ, address := some addr, dummy := 8 }

def read_memory (env : Env) (addr : Nat) (len : Nat) (s : FlashMemory) :
    List Nat × FlashMemory :=
  blocking_read env len (read_memory_cfg addr) s

def erase_cfg (addr : Nat) (instruction : Nat) : TransferConfig :=
  { iwidth := QspiWidth.SING, awidth := QspiWidth.SING, dwidth := QspiWidth.NONE,
    instruction := instruction, address := some addr, dummy := 0 }

def perform_erase (env : Env) (fuel : Nat) (addr : Nat) (instruction : Nat)
    (s : FlashMemory) : Res FlashMemory :=
  wait_write_finish env fuel (blocking_command (erase_cfg addr instruction) (write_enable s))

def erase_sector (env : Env) (fuel : Nat) (addr : Nat) (s : FlashMemory) : Res FlashMemory :=
  perform_erase env fuel addr CMD_SECTOR_ERASE s

def erase_block_32k (env : Env) (fuel : Nat) (addr : Nat) (s : FlashMemory) : Res FlashMemory :=
  perform_erase env fuel addr CMD_BLOCK_ERASE_32K s

def erase_block_64k (env : Env) (fuel : Nat) (addr : Nat) (s : FlashMemory) : Res FlashMemory :=
  perform_erase env fuel addr CMD_BLOCK_ERASE_64K s

def erase_chip (env : Env) (fuel : Nat) (s : FlashMemory) : Res FlashMemory :=
  wait_write_finish env fuel (exec_command CMD_CHIP_ERASE (write_enable s))

def write_page_cfg (addr : Nat) : TransferConfig :=
  { iwidth := QspiWidth.SING, awidth := QspiWidth.SING, dwidth := QspiWidth.QUAD,
    instruction := CMD_QUAD_WRITE_PG, address := some addr, dummy := 0 }

/-- assert!((len as u32 + (addr & 0x000000ff)) <= MEMORY_PAGE_SIZE as u32)
followed by write-enable, the quad page-program write, and the busy wait. -/
def write_page (env : Env) (fuel : Nat) (addr : Nat) (buffer : List Nat) (len : Nat)
    (s : FlashMemory) : Res FlashMemory :=
  if len + (addr &&& 0x000000FF) ≤ MEMORY_PAGE_SIZE then
    wait_write_finish env fuel (blocking_write buffer (write_page_cfg addr) (write_enable s))
  else Res.crash

/-- MEMORY_PAGE_SIZE - (place & 0x000000ff), as wrapping usize arithmetic. -/
def max_chunk_size (place : Nat) : Nat :=
  (MEMORY_PAGE_SIZE + U32_MOD - (place &&& 0x000000FF)) % U32_MOD

def chunk_size (left : Nat) (place : Nat) : Nat :=
  if left ≥ max_chunk_size place then max_chunk_size place else left

/-- The while loop of write_memory, one fuel unit per iteration; left,
place and chunk_start are the loop-carried variables of the source. -/
def write_memory_go (env : Env) :
    Nat → Nat → Nat → Nat → List Nat → FlashMemory → Res FlashMemory
  | 0, left, _, _, _, s => if 0 < left then Res.fuel else Res.ok s
  | fuel + 1, left, place, chunk_start, buffer, s =>
    if 0 < left then
      match write_page env fuel place ((buffer.drop chunk_start).take (chunk_size left place))
          (chunk_size left place) s with
      | Res.ok s2 =>
        write_memory_go env fuel (left - chunk_size left place)
          ((place + chunk_size left place) % U32_MOD)
          (chunk_start + chunk_size left place) buffer s2
      | Res.crash => Res.crash
      | Res.fuel => Res.fuel
    else Res.ok s

def write_memory (env : Env) (fuel : Nat) (addr : Nat) (buffer : List Nat)
    (s : FlashMemory) : Res FlashMemory :=
  write_memory_go env fuel buffer.length addr 0 buffer s

/-- FlashMemory::new: construct with qpi_mode = false, reset the device,
then enable quad mode. -/
def FlashMemory.new (env : Env) (fuel : Nat) : Res FlashMemory :=
  match reset_memory env fuel { qpi_mode := false, reads := 0, trace := [] } with
  | Res.ok s => Res.ok (enable_quad env s)
  | Res.crash => Res.crash
  | Res.fuel => Res.fuel

/-- The operations the driver offers, for quantifying over the whole API. -/
inductive Op where
  | reset_memory
  | enable_quad
  | disable_quad
  | enter_qpi_mode
  | enable_mm
  | erase_sector (addr : Nat)
  | erase_block_32k (addr : Nat)
  | erase_block_64k (addr : Nat)
  | erase_chip
  | write_memory (addr : Nat) (buffer : List Nat)
  | read_memory (addr : Nat) (len : Nat)
  | read_id
  | write_enable
  | read_cr
  | write_cr (value : Nat)
  | read_sr
  | write_sr (value : Nat)
  | read_register (instruction : Nat)
  | write_register (instruction : Nat) (value : Nat)
deriving DecidableEq

def run (op : Op) (env : Env) (fuel : Nat) (s : FlashMemory) : Res FlashMemory :=
  match op with
  | Op.reset_memory => reset_memory env fuel s
  | Op.enable_quad => Res.ok (enable_quad env s)
  | Op.disable_quad => Res.ok (disable_quad env s)
  | Op.enter_qpi_mode => Res.ok (enter_qpi_mode env s)
  | Op.enable_mm => Res.ok (enable_mm env s)
  | Op.erase_sector addr => erase_sector env fuel addr s
  | Op.erase_block_32k addr => erase_block_32k env fuel addr s
  | Op.erase_block_64k addr => erase_block_64k env fuel addr s
  | Op.erase_chip => erase_chip env fuel s
  | Op.write_memory addr buffer => write_memory env fuel addr buffer s
  | Op.read_memory addr len => Res.ok (read_memory env addr len s).2
  | Op.read_id => Res.ok (read_id env s).2
  | Op.write_enable => Res.ok (write_enable s)
  | Op.read_cr => Res.ok (read_cr env s).2
  | Op.write_cr value => Res.ok (write_cr value s)
  | Op.read_sr => Res.ok (read_sr env s).2
  | Op.write_sr value => Res.ok (write_sr value s)
  | Op.read_register instruction => Res.ok (read_register env instruction s).2
  | Op.write_register instruction value => Res.ok (write_register instruction value s)

/-- Freshly constructed driver state. -/
def s0 : FlashMemory := { qpi_mode := false, reads := 0, trace := [] }

/-- Oracle of a device that always answers 0x02: the Quad-Enable bit is
set and Write-In-Progress is clear on every register read. -/
def envQE : Env := fun _ => [0x02]

theorem read_register_eq (env : Env) (instruction : Nat) (s : FlashMemory) :
    read_register env instruction s =
      (resp_byte env s.reads,
       { s with reads := s.reads + 1,
                trace := s.trace ++ [Event.read 1 (register_cfg s.qpi_mode instruction)] }) := rfl

theorem read_sr_eq (env : Env) (s : FlashMemory) :
    read_sr env s =
      (resp_byte env s.reads,
       { s with reads := s.reads + 1,
                trace := s.trace ++ [Event.read 1 (register_cfg s.qpi_mode CMD_READ_STATUS_REG1)] }) := rfl

theorem wait_write_finish_ok_spec (env : Env) :
    ∀ (fuel : Nat) (s t : FlashMemory), wait_write_finish env fuel s = Res.ok t →
      ∃ n : Nat, t.qpi_mode = s.qpi_mode ∧ t.reads = s.reads + n + 1 ∧
        t.trace = s.trace ++
          List.replicate (n + 1) (Event.read 1 (register_cfg s.qpi_mode CMD_READ_STATUS_REG1)) ∧
        (∀ i, i < n → resp_byte env (s.reads + i) &&& 0x01 ≠ 0) ∧
        resp_byte env (s.reads + n) &&& 0x01 = 0 := by
  intro fuel
  induction fuel with
  | zero => intro s t h; simp [wait_write_finish] at h
  | succ f ih =>
    intro s t h
    rw [wait_write_finish, read_sr_eq] at h
    dsimp at h
    by_cases hb : resp_byte env s.reads &&& 0x01 ≠ 0
    · rw [if_pos hb] at h
      obtain ⟨n, hq, hr, ht, hbusy, hclear⟩ := ih _ _ h
      dsimp at hq hr ht hbusy hclear
      refine ⟨n + 1, hq, by omega, ?_, ?_, ?_⟩
      · rw [ht, List.append_assoc]
        congr 1
      · intro i hi
        cases i with
        | zero => simpa using hb
        | succ j =>
          have hx := hbusy j (by omega)
          have hj : s.reads + 1 + j = s.reads + (j + 1) := by omega
          rwa [hj] at hx
      · have hj : s.reads + 1 + n = s.reads + (n + 1) := by omega
        rwa [hj] at hclear
    · rw [if_neg hb] at h
      push_neg at hb
      cases h
      exact ⟨0, rfl, rfl, rfl, by omega, by simpa using hb⟩

theorem wait_write_finish_term (env : Env) :
    ∀ (n : Nat) (s : FlashMemory), resp_byte env (s.reads + n) &&& 0x01 = 0 →
      ∃ t, wait_write_finish env (n + 1) s = Res.ok t := by
  intro n
  induction n with
  | zero =>
    intro s h
    refine ⟨(read_sr env s).2, ?_⟩
    rw [wait_write_finish, read_sr_eq]
    dsimp
    rw [if_neg (by simpa using h)]
  | succ m ih =>
    intro s h
    by_cases hb : resp_byte env s.reads &&& 0x01 ≠ 0
    · obtain ⟨t, ht⟩ := ih (read_sr env s).2 (by
        show resp_byte env (s.reads + 1 + m) &&& 0x01 = 0
        have hj : s.reads + 1 + m = s.reads + (m + 1) := by omega
        rw [hj]; exact h)
      refine ⟨t, ?_⟩
      rw [wait_write_finish, read_sr_eq]
      dsimp
      rw [if_pos hb]
      exact ht
    · refine ⟨(read_sr env s).2, ?_⟩
      rw [wait_write_finish, read_sr_eq]
      dsimp
      rw [if_neg (by simpa using hb)]

theorem wait_write_finish_ne_crash (env : Env) :
    ∀ (fuel : Nat) (s : FlashMemory), wait_write_finish env fuel s ≠ Res.crash := by
  intro fuel
  induction fuel with
  | zero => intro s h; simp [wait_write_finish] at h
  | succ f ih =>
    intro s h
    rw [wait_write_finish] at h
    by_cases hb : (read_sr env s).1 &&& 0x01 ≠ 0
    · rw [if_pos hb] at h; exact ih _ h
    · rw [if_neg hb] at h; cases h

theorem chunk_size_at_boundary (left : Nat) : chunk_size left 8 = 0 := by
  have h8 : (8 : Nat) &&& 0x000000FF = 8 := by decide
  simp [chunk_size, max_chunk_size, MEMORY_PAGE_SIZE, U32_MOD, h8]

/-- Once the cursor sits at in-page offset 8 (the value place & 0xFF takes
right after a chunk that filled up to a page boundary below address 256),
every further iteration programs an empty chunk and makes no progress. -/
theorem write_memory_go_stuck (env : Env) :
    ∀ (fuel left chunk_start : Nat) (buffer : List Nat) (s : FlashMemory), 0 < left →
      write_memory_go env fuel left 8 chunk_start buffer s = Res.fuel := by
  intro fuel
  induction fuel with
  | zero =>
    intro left cs buf s h
    simp [write_memory_go, h]
  | succ f ih =>
    intro left cs buf s h
    rw [write_memory_go, if_pos h, chunk_size_at_boundary]
    have hwp : write_page env f 8 ((buf.drop cs).take 0) 0 s =
        wait_write_finish env f (blocking_write ((buf.drop cs).take 0) (write_page_cfg 8) (write_enable s)) := by
      rw [write_page, if_pos (by decide)]
    rw [hwp]
    cases hw : wait_write_finish env f (blocking_write ((buf.drop cs).take 0) (write_page_cfg 8) (write_enable s)) with
    | ok s2 =>
      have h8 : (8 + 0) % U32_MOD = 8 := by decide
      simpa [h8] using ih left cs buf s2 h
    | crash => exact absurd hw (wait_write_finish_ne_crash env f _)
    | fuel => rfl

/-- Claim C1 (code bug): the claim promises that for every start address
the chunker issues only in-page page programs that reconstruct the buffer,
but the code computes the in-page offset as place & 0xFF instead of
place mod MEMORY_PAGE_SIZE.  At start address 16 with a one-byte buffer
the claim demands a single in-page one-byte program (16 mod 8 = 0); the
code instead trips the page-boundary assert in write_page
(1 + (16 & 0xFF) = 17 > 8) and panics, for every oracle and fuel bound. -/
theorem write_memory_offset_mask_bug :
    ∀ (env : Env) (fuel : Nat) (s : FlashMemory),
      write_memory env (fuel + 1) 16 [0x42] s = Res.crash := by
  intro env fuel s
  rfl

/-- Claim C2 (code bug): the boundary test of the spec (start address
page_size - 1 = 7, two bytes) expects exactly two page-program calls, but
after the first one-byte chunk the cursor reaches 8, max_chunk_size
becomes 8 - (8 & 0xFF) = 0, and the loop repeats with zero-length chunks
forever: write_memory never returns for any oracle and any fuel bound. -/
theorem write_memory_boundary_case_diverges :
    ∀ (env : Env) (fuel : Nat) (s : FlashMemory),
      write_memory env fuel 7 [0xAA, 0xBB] s = Res.fuel := by
  intro env fuel s
  cases fuel with
  | zero => rfl
  | succ f =>
    show write_memory_go env (f + 1) 2 7 0 [0xAA, 0xBB] s = Res.fuel
    rw [write_memory_go, if_pos (by decide)]
    have hcs : chunk_size 2 7 = 1 := by decide
    rw [hcs]
    have hwp : write_page env f 7 (([0xAA, 0xBB].drop 0).take 1) 1 s =
        wait_write_finish env f
          (blocking_write (([0xAA, 0xBB].drop 0).take 1) (write_page_cfg 7) (write_enable s)) := by
      rw [write_page, if_pos (by decide)]
    rw [hwp]
    cases hw : wait_write_finish env f
        (blocking_write (([0xAA, 0xBB].drop 0).take 1) (write_page_cfg 7) (write_enable s)) with
    | ok s2 =>
      have h71 : (7 + 1) % U32_MOD = 8 := by decide
      simpa [h71] using write_memory_go_stuck env f (2 - 1) (0 + 1) [0xAA, 0xBB] s2 (by decide)
    | crash => exact absurd hw (wait_write_finish_ne_crash env f _)
    | fuel => rfl

/-- Claim C9: the busy wait on Write-In-Progress returns normally for some
fuel bound if and only if some eventual Status-Register-1 read comes back
with bit 0 clear; in particular it never returns on a device whose
responses never clear that bit, there being no timeout or iteration cap. -/
theorem busy_wait_termination_iff :
    ∀ (env : Env) (s : FlashMemory),
      (∃ fuel t, wait_write_finish env fuel s = Res.ok t) ↔
      (∃ n, resp_byte env (s.reads + n) &&& 0x01 = 0) := by
  intro env s
  constructor
  · rintro ⟨fuel, t, h⟩
    obtain ⟨n, _, _, _, _, hclear⟩ := wait_write_finish_ok_spec env fuel s t h
    exact ⟨n, hclear⟩
  · rintro ⟨n, h⟩
    obtain ⟨t, ht⟩ := wait_write_finish_term env n s h
    exact ⟨n + 1, t, ht⟩

/-- Claim C10: write_memory on an empty buffer issues no bus transaction
at all and returns the driver state unchanged, for every start address,
oracle and fuel bound. -/
theorem write_memory_empty_noop :
    ∀ (env : Env) (fuel addr : Nat) (s : FlashMemory),
      write_memory env fuel addr [] s = Res.ok s := by
  intro env fuel addr s
  cases fuel <;> rfl

theorem enable_quad_eq (env : Env) (s : FlashMemory) :
    enable_quad env s =
      { s with reads := s.reads + 2,
               trace := s.trace ++
                 [Event.read 1 (register_cfg s.qpi_mode CMD_READ_STATUS_REG2),
                  Event.write [resp_byte env s.reads ||| 0x02]
                    (register_cfg s.qpi_mode CMD_WRITE_STATUS_REG2),
                  Event.read 1 (register_cfg s.qpi_mode CMD_READ_STATUS_REG1),
                  Event.write [resp_byte env (s.reads + 1) ||| 0x02]
                    (register_cfg s.qpi_mode CMD_WRITE_STATUS_REG1)] } := by
  obtain ⟨q, r, tr⟩ := s
  simp [enable_quad, read_cr, read_sr, write_cr, write_sr, write_register,
    blocking_write, read_register_eq, List.append_assoc]

theorem disable_quad_eq (env : Env) (s : FlashMemory) :
    disable_quad env s =
      { s with reads := s.reads + 1,
               trace := s.trace ++
                 [Event.read 1 (register_cfg s.qpi_mode CMD_READ_STATUS_REG2),
                  Event.write [resp_byte env s.reads &&& 0xFD]
                    (register_cfg s.qpi_mode CMD_WRITE_STATUS_REG2)] } := by
  obtain ⟨q, r, tr⟩ := s
  simp [disable_quad, read_cr, write_cr, write_register, blocking_write,
    read_register_eq, List.append_assoc]

theorem enter_qpi_mode_eq (env : Env) (s : FlashMemory) :
    enter_qpi_mode env s =
      { qpi_mode := true, reads := s.reads + 1,
        trace := s.trace ++
          (if resp_byte env s.reads &&& QE_MASK = 0 then
            [Event.read 1 (register_cfg s.qpi_mode CMD_READ_STATUS_REG2),
             Event.write [resp_byte env s.reads ||| QE_MASK]
               (register_cfg s.qpi_mode CMD_WRITE_STATUS_REG2)]
          else
            [Event.read 1 (register_cfg s.qpi_mode CMD_READ_STATUS_REG2)]) ++
          [Event.command enter_qpi_cmd_cfg, Event.command write_enable_cfg,
           Event.write [0x03 <<< 4] set_read_parameters_cfg] } := by
  obtain ⟨q, r, tr⟩ := s
  by_cases h : resp_byte env r &&& QE_MASK = 0
  · simp [enter_qpi_mode, qe_checked, read_cr, write_cr, write_register, write_enable,
      blocking_write, blocking_command, read_register_eq, if_pos h, List.append_assoc, h]
  · simp [enter_qpi_mode, qe_checked, read_cr, write_cr, write_register, write_enable,
      blocking_write, blocking_command, read_register_eq, if_neg h, List.append_assoc, h]

/-- True exactly on write transactions addressed to the Configuration
Register (Status Register 2) or Status Register 1. -/
def is_status_reg_write : Event → Bool
  | Event.write _ cfg =>
    (cfg.instruction == CMD_WRITE_STATUS_REG2) || (cfg.instruction == CMD_WRITE_STATUS_REG1)
  | _ => false

/-- Claim C3 (counterexample): with the Configuration Register already
reading 0x02 (Quad-Enable set), the quad-enable step of the driver, enable_quad
still issues two status-register writes, not zero. -/
theorem enable_quad_writes_when_qe_already_set :
    resp_byte envQE 0 &&& QE_MASK ≠ 0 ∧
    ((enable_quad envQE s0).trace.filter is_status_reg_write).length = 2 := by decide

/-- Claim C3 (amended): the quad-enable check inside enter_qpi_mode issues
no Configuration-Register or Status-Register-1 write when the Quad-Enable
bit is already set; the standalone enable_quad step, however,
unconditionally issues one write to each of those registers. -/
theorem quad_enable_idempotence_amended :
    ∀ (env : Env) (s : FlashMemory) (env2 : Env) (s2 : FlashMemory),
      (resp_byte env s.reads &&& QE_MASK ≠ 0 →
        ((enter_qpi_mode env s).trace.drop s.trace.length).filter is_status_reg_write = []) ∧
      (((enable_quad env2 s2).trace.drop s2.trace.length).filter is_status_reg_write).length = 2 := by
  intro env s env2 s2
  constructor
  · intro h
    rw [enter_qpi_mode_eq, if_neg h]
    dsimp
    rw [List.append_assoc, List.drop_left]
    simp [is_status_reg_write, register_cfg, set_read_parameters_cfg, CMD_SET_READ_PARAMETERS,
      CMD_WRITE_STATUS_REG1, CMD_WRITE_STATUS_REG2]
  · rw [enable_quad_eq]
    dsimp
    rw [List.drop_left]
    simp [is_status_reg_write, register_cfg, CMD_WRITE_STATUS_REG1, CMD_WRITE_STATUS_REG2]

theorem quad_enable_idempotence_witness :
    ((enter_qpi_mode envQE s0).trace.drop s0.trace.length).filter is_status_reg_write = [] ∧
    (((enable_quad envQE s0).trace.drop s0.trace.length).filter is_status_reg_write).length = 2 :=
  ⟨(quad_enable_idempotence_amended envQE s0 envQE s0).1 (by decide),
   (quad_enable_idempotence_amended envQE s0 envQE s0).2⟩

/-- Claim C8: read_register issues exactly one read transaction whose
descriptor has no address, zero dummy cycles and instruction/data widths
both quad exactly when qpi_mode is set (both single otherwise), returning
the single byte read; write_register makes the same width selection and
issues exactly one write transaction carrying one byte. -/
theorem register_access_widths :
    ∀ (env : Env) (instruction value : Nat) (s : FlashMemory),
      read_register env instruction s =
        (resp_byte env s.reads,
         { s with reads := s.reads + 1,
                  trace := s.trace ++ [Event.read 1 (register_cfg s.qpi_mode instruction)] }) ∧
      write_register instruction value s =
        { s with trace := s.trace ++ [Event.write [value] (register_cfg s.qpi_mode instruction)] } ∧
      (register_cfg s.qpi_mode instruction).address = none ∧
      (register_cfg s.qpi_mode instruction).dummy = 0 ∧
      ((register_cfg s.qpi_mode instruction).iwidth = QspiWidth.QUAD ∧
        (register_cfg s.qpi_mode instruction).dwidth = QspiWidth.QUAD ↔ s.qpi_mode = true) ∧
      ((register_cfg s.qpi_mode instruction).iwidth = QspiWidth.SING ∧
        (register_cfg s.qpi_mode instruction).dwidth = QspiWidth.SING ↔ s.qpi_mode = false) := by
  intro env instruction value s
  obtain ⟨q, r, tr⟩ := s
  refine ⟨read_register_eq env instruction _, rfl, rfl, rfl, ?_, ?_⟩ <;>
    cases q <;> simp [register_cfg]

/-- Shape of every erase/program-family operation relative to its entry
state s: the emitted transactions are exactly one write-enable command,
then the transaction of the operation itself, then only Status-Register-1 poll
reads, every response before the last having Write-In-Progress set and
the last having it clear. -/
def erase_like_shape (env : Env) (s : FlashMemory) (opEvt : Event) (t : FlashMemory) : Prop :=
  ∃ n, t.trace = s.trace ++ [Event.command write_enable_cfg, opEvt] ++
      List.replicate (n + 1) (Event.read 1 (register_cfg s.qpi_mode CMD_READ_STATUS_REG1)) ∧
    (∀ i, i < n → resp_byte env (s.reads + i) &&& 0x01 ≠ 0) ∧
    resp_byte env (s.reads + n) &&& 0x01 = 0

theorem wait_after_we_op (env : Env) (fuel : Nat) (s t : FlashMemory) (opEvt : Event)
    (h : wait_write_finish env fuel
        { s with trace := s.trace ++ [Event.command write_enable_cfg, opEvt] } = Res.ok t) :
    erase_like_shape env s opEvt t := by
  obtain ⟨n, _, _, ht, hbusy, hclear⟩ := wait_write_finish_ok_spec env fuel _ t h
  dsimp at ht hbusy hclear
  exact ⟨n, ht, hbusy, hclear⟩

theorem we_then_command (cfg : TransferConfig) (s : FlashMemory) :
    blocking_command cfg (write_enable s) =
      { s with trace := s.trace ++ [Event.command write_enable_cfg, Event.command cfg] } := by
  obtain ⟨q, r, tr⟩ := s
  simp [blocking_command, write_enable, List.append_assoc]

theorem we_then_write (data : List Nat) (cfg : TransferConfig) (s : FlashMemory) :
    blocking_write data cfg (write_enable s) =
      { s with trace := s.trace ++ [Event.command write_enable_cfg, Event.write data cfg] } := by
  obtain ⟨q, r, tr⟩ := s
  simp [blocking_write, write_enable, blocking_command, List.append_assoc]

/-- Claim C4: every erase/program-family operation (sector erase, 32K and
64K block erase, chip erase, page program) emits a write-enable
transaction immediately before its command, then busy-waits on the
Write-In-Progress bit immediately after, with nothing but status poll
reads following the command, and returns only once a poll reads bit 0
clear. -/
theorem erase_program_sequencing :
    ∀ (env : Env) (fuel addr instruction len : Nat) (buffer : List Nat) (s : FlashMemory),
      (∀ t, perform_erase env fuel addr instruction s = Res.ok t →
        erase_like_shape env s (Event.command (erase_cfg addr instruction)) t) ∧
      (∀ t, erase_chip env fuel s = Res.ok t →
        erase_like_shape env s (Event.command (exec_command_cfg CMD_CHIP_ERASE)) t) ∧
      (∀ t, write_page env fuel addr buffer len s = Res.ok t →
        erase_like_shape env s (Event.write buffer (write_page_cfg addr)) t) ∧
      erase_sector env fuel addr s = perform_erase env fuel addr CMD_SECTOR_ERASE s ∧
      erase_block_32k env fuel addr s = perform_erase env fuel addr CMD_BLOCK_ERASE_32K s ∧
      erase_block_64k env fuel addr s = perform_erase env fuel addr CMD_BLOCK_ERASE_64K s := by
  intro env fuel addr instruction len buffer s
  refine ⟨?_, ?_, ?_, rfl, rfl, rfl⟩
  · intro t h
    rw [perform_erase, we_then_command] at h
    exact wait_after_we_op env fuel s t _ h
  · intro t h
    rw [erase_chip, exec_command, we_then_command] at h
    exact wait_after_we_op env fuel s t _ h
  · intro t h
    rw [write_page] at h
    by_cases hc : len + (addr &&& 0x000000FF) ≤ MEMORY_PAGE_SIZE
    · rw [if_pos hc, we_then_write] at h
      exact wait_after_we_op env fuel s t _ h
    · rw [if_neg hc] at h
      cases h

/-- Result state of a one-poll sector erase at address 0 from s0 under envQE. -/
def tC4 : FlashMemory :=
  { qpi_mode := false, reads := 1,
    trace := [Event.command write_enable_cfg, Event.command (erase_cfg 0 CMD_SECTOR_ERASE),
              Event.read 1 (register_cfg false CMD_READ_STATUS_REG1)] }

theorem erase_program_sequencing_witness :
    erase_like_shape envQE s0 (Event.command (erase_cfg 0 CMD_SECTOR_ERASE)) tC4 :=
  (erase_program_sequencing envQE 1 0 CMD_SECTOR_ERASE 0 [] s0).1 tC4 (by decide)

theorem reset_pre_eq (s : FlashMemory) :
    exec_command CMD_RESET (exec_command CMD_ENABLE_RESET (exec_command_4 CMD_RESET
      (exec_command_4 CMD_ENABLE_RESET s))) =
    { s with trace := s.trace ++
        [Event.command (exec_command_4_cfg CMD_ENABLE_RESET),
         Event.command (exec_command_4_cfg CMD_RESET),
         Event.command (exec_command_cfg CMD_ENABLE_RESET),
         Event.command (exec_command_cfg CMD_RESET)] } := by
  obtain ⟨q, r, tr⟩ := s
  simp [exec_command, exec_command_4, blocking_command, List.append_assoc]

/-- Claim C6: the reset sequence issues enable-reset (0x66) and reset
(0x99) with quad-wire instruction encoding, then both again with
single-wire encoding, then polls Status Register 1 until the
Write-In-Progress bit reads clear; and FlashMemory::new runs exactly this
sequence from the freshly constructed state before anything else, quad
enable following it. -/
theorem reset_sequence_correct :
    ∀ (env : Env) (fuel : Nat) (s : FlashMemory),
      (∀ t, reset_memory env fuel s = Res.ok t →
        ∃ n, t.trace = s.trace ++
            [Event.command (exec_command_4_cfg CMD_ENABLE_RESET),
             Event.command (exec_command_4_cfg CMD_RESET),
             Event.command (exec_command_cfg CMD_ENABLE_RESET),
             Event.command (exec_command_cfg CMD_RESET)] ++
            List.replicate (n + 1) (Event.read 1 (register_cfg s.qpi_mode CMD_READ_STATUS_REG1)) ∧
          (∀ i, i < n → resp_byte env (s.reads + i) &&& 0x01 ≠ 0) ∧
          resp_byte env (s.reads + n) &&& 0x01 = 0) ∧
      (∀ t, FlashMemory.new env fuel = Res.ok t →
        ∃ u, reset_memory env fuel { qpi_mode := false, reads := 0, trace := [] } = Res.ok u ∧
          t = enable_quad env u) := by
  intro env fuel s
  constructor
  · intro t h
    rw [reset_memory, reset_pre_eq] at h
    obtain ⟨n, _, _, ht, hbusy, hclear⟩ := wait_write_finish_ok_spec env fuel _ t h
    dsimp at ht hbusy hclear
    exact ⟨n, ht, hbusy, hclear⟩
  · intro t h
    rw [FlashMemory.new] at h
    revert h
    cases hr : reset_memory env fuel { qpi_mode := false, reads := 0, trace := [] } with
    | ok u => intro h; cases h; exact ⟨u, rfl, rfl⟩
    | crash => intro h; cases h
    | fuel => intro h; cases h

/-- Result state of a one-poll reset from s0 under envQE. -/
def rC6 : FlashMemory :=
  { qpi_mode := false, reads := 1,
    trace := [Event.command (exec_command_4_cfg CMD_ENABLE_RESET),
              Event.command (exec_command_4_cfg CMD_RESET),
              Event.command (exec_command_cfg CMD_ENABLE_RESET),
              Event.command (exec_command_cfg CMD_RESET),
              Event.read 1 (register_cfg false CMD_READ_STATUS_REG1)] }

theorem reset_sequence_witness :
    (∃ n, rC6.trace = s0.trace ++
        [Event.command (exec_command_4_cfg CMD_ENABLE_RESET),
         Event.command (exec_command_4_cfg CMD_RESET),
         Event.command (exec_command_cfg CMD_ENABLE_RESET),
         Event.command (exec_command_cfg CMD_RESET)] ++
        List.replicate (n + 1) (Event.read 1 (register_cfg s0.qpi_mode CMD_READ_STATUS_REG1)) ∧
      (∀ i, i < n → resp_byte envQE (s0.reads + i) &&& 0x01 ≠ 0) ∧
      resp_byte envQE (s0.reads + n) &&& 0x01 = 0) ∧
    (∃ u, reset_memory envQE 1 { qpi_mode := false, reads := 0, trace := [] } = Res.ok u ∧
      enable_quad envQE rC6 = enable_quad envQE u) :=
  ⟨(reset_sequence_correct envQE 1 s0).1 rC6 (by decide),
   (reset_sequence_correct envQE 1 s0).2 (enable_quad envQE rC6) (by decide)⟩

theorem wait_frame (env : Env) (fuel : Nat) (s t : FlashMemory)
    (h : wait_write_finish env fuel s = Res.ok t) :
    t.qpi_mode = s.qpi_mode ∧ ∃ d, t.trace = s.trace ++ d := by
  obtain ⟨n, hq, _, ht, _, _⟩ := wait_write_finish_ok_spec env fuel s t h
  exact ⟨hq, _, ht⟩

theorem trace_ext_compose {s u t : FlashMemory} (d0 : List Event)
    (hu : u.trace = s.trace ++ d0) (h : ∃ d, t.trace = u.trace ++ d) :
    ∃ d, t.trace = s.trace ++ d := by
  obtain ⟨d, hd⟩ := h
  exact ⟨d0 ++ d, by rw [hd, hu, List.append_assoc]⟩

theorem write_page_frame (env : Env) (fuel addr len : Nat) (buffer : List Nat)
    (s t : FlashMemory) (h : write_page env fuel addr buffer len s = Res.ok t) :
    t.qpi_mode = s.qpi_mode ∧ ∃ d, t.trace = s.trace ++ d := by
  rw [write_page] at h
  by_cases hc : len + (addr &&& 0x000000FF) ≤ MEMORY_PAGE_SIZE
  · rw [if_pos hc, we_then_write] at h
    obtain ⟨hq, hext⟩ := wait_frame env fuel _ t h
    exact ⟨hq, trace_ext_compose [Event.command write_enable_cfg,
      Event.write buffer (write_page_cfg addr)] rfl hext⟩
  · rw [if_neg hc] at h
    cases h

theorem write_memory_go_frame (env : Env) :
    ∀ (fuel left place cs : Nat) (buffer : List Nat) (s t : FlashMemory),
      write_memory_go env fuel left place cs buffer s = Res.ok t →
        t.qpi_mode = s.qpi_mode ∧ ∃ d, t.trace = s.trace ++ d := by
  intro fuel
  induction fuel with
  | zero =>
    intro left place cs buf s t h
    rw [write_memory_go] at h
    by_cases hl : 0 < left
    · rw [if_pos hl] at h; cases h
    · rw [if_neg hl] at h; cases h; exact ⟨rfl, [], by simp⟩
  | succ f ih =>
    intro left place cs buf s t h
    rw [write_memory_go] at h
    by_cases hl : 0 < left
    · rw [if_pos hl] at h
      revert h
      cases hw : write_page env f place ((buf.drop cs).take (chunk_size left place))
          (chunk_size left place) s with
      | ok s2 =>
        intro h
        obtain ⟨hq2, hext2⟩ := write_page_frame env f _ _ _ s s2 hw
        obtain ⟨hq, hext⟩ := ih _ _ _ buf s2 t h
        obtain ⟨d0, hd0⟩ := hext2
        exact ⟨hq.trans hq2, trace_ext_compose d0 hd0 hext⟩
      | crash => intro h; cases h
      | fuel => intro h; cases h
    · rw [if_neg hl] at h; cases h; exact ⟨rfl, [], by simp⟩

theorem trace_ext_trans {s u t : FlashMemory} (h1 : ∃ d, u.trace = s.trace ++ d)
    (h2 : ∃ d, t.trace = u.trace ++ d) : ∃ d, t.trace = s.trace ++ d := by
  obtain ⟨d0, hd0⟩ := h1
  exact trace_ext_compose d0 hd0 h2

theorem enter_qpi_trace_ext (env : Env) (s : FlashMemory) :
    ∃ d, (enter_qpi_mode env s).trace = s.trace ++ d :=
  ⟨_, by rw [enter_qpi_mode_eq]; dsimp; rw [List.append_assoc]⟩

/-- After any successful driver operation, qpi_mode is true if the
operation was QPI entry (directly or via enable_mm) and is otherwise the
entry value, and the transaction trace has only been appended to. -/
theorem run_frame :
    ∀ (op : Op) (env : Env) (fuel : Nat) (s t : FlashMemory),
      run op env fuel s = Res.ok t →
        t.qpi_mode = (if op = Op.enter_qpi_mode ∨ op = Op.enable_mm then true else s.qpi_mode) ∧
        ∃ d, t.trace = s.trace ++ d := by
  intro op env fuel s t h
  cases op <;> simp only [run] at h
  case reset_memory =>
    rw [reset_memory, reset_pre_eq] at h
    obtain ⟨hq, hext⟩ := wait_frame env fuel _ t h
    refine ⟨?_, trace_ext_compose _ rfl hext⟩
    rw [if_neg (by simp)]
    exact hq
  case enable_quad =>
    cases h
    refine ⟨?_, _, by rw [enable_quad_eq]⟩
    rw [if_neg (by simp), enable_quad_eq]
  case disable_quad =>
    cases h
    refine ⟨?_, _, by rw [disable_quad_eq]⟩
    rw [if_neg (by simp), disable_quad_eq]
  case enter_qpi_mode =>
    cases h
    refine ⟨?_, enter_qpi_trace_ext env s⟩
    rw [if_pos (by simp), enter_qpi_mode_eq]
  case enable_mm =>
    cases h
    refine ⟨?_, trace_ext_trans (enter_qpi_trace_ext env s) ⟨_, rfl⟩⟩
    rw [if_pos (by simp), enable_mm, enter_qpi_mode_eq]
    rfl
  case erase_sector addr =>
    rw [erase_sector, perform_erase, we_then_command] at h
    obtain ⟨hq, hext⟩ := wait_frame env fuel _ t h
    exact ⟨by rw [if_neg (by simp)]; exact hq, trace_ext_compose _ rfl hext⟩
  case erase_block_32k addr =>
    rw [erase_block_32k, perform_erase, we_then_command] at h
    obtain ⟨hq, hext⟩ := wait_frame env fuel _ t h
    exact ⟨by rw [if_neg (by simp)]; exact hq, trace_ext_compose _ rfl hext⟩
  case erase_block_64k addr =>
    rw [erase_block_64k, perform_erase, we_then_command] at h
    obtain ⟨hq, hext⟩ := wait_frame env fuel _ t h
    exact ⟨by rw [if_neg (by simp)]; exact hq, trace_ext_compose _ rfl hext⟩
  case erase_chip =>
    rw [erase_chip, exec_command, we_then_command] at h
    obtain ⟨hq, hext⟩ := wait_frame env fuel _ t h
    exact ⟨by rw [if_neg (by simp)]; exact hq, trace_ext_compose _ rfl hext⟩
  case write_memory addr buffer =>
    rw [write_memory] at h
    obtain ⟨hq, hext⟩ := write_memory_go_frame env fuel _ _ _ buffer s t h
    exact ⟨by rw [if_neg (by simp)]; exact hq, hext⟩
  case read_memory addr len =>
    cases h
    exact ⟨by rw [if_neg (by simp)]; rfl, _, rfl⟩
  case read_id =>
    cases h
    exact ⟨by rw [if_neg (by simp)]; rfl, _, rfl⟩
  case write_enable =>
    cases h
    exact ⟨by rw [if_neg (by simp)]; rfl, _, rfl⟩
  case read_cr =>
    cases h
    exact ⟨by rw [if_neg (by simp)]; rfl, _, rfl⟩
  case write_cr value =>
    cases h
    exact ⟨by rw [if_neg (by simp)]; rfl, _, rfl⟩
  case read_sr =>
    cases h
    exact ⟨by rw [if_neg (by simp)]; rfl, _, rfl⟩
  case write_sr value =>
    cases h
    exact ⟨by rw [if_neg (by simp)]; rfl, _, rfl⟩
  case read_register instruction =>
    cases h
    exact ⟨by rw [if_neg (by simp)]; rfl, _, rfl⟩
  case write_register instruction value =>
    cases h
    exact ⟨by rw [if_neg (by simp)]; rfl, _, rfl⟩

/-- Claim C5 (counterexample): with the Configuration Register reading
0x02 (Quad-Enable set), disable_quad issues a Configuration-Register
write whose value has the Quad-Enable bit cleared, moving the device mode
backward from QuadRegisterEnabled toward SingleWire. -/
theorem disable_quad_clears_qe_bit :
    resp_byte envQE 0 &&& QE_MASK ≠ 0 ∧
    (disable_quad envQE s0).trace =
      [Event.read 1 (register_cfg false CMD_READ_STATUS_REG2),
       Event.write [0x00] (register_cfg false CMD_WRITE_STATUS_REG2)] ∧
    0x00 &&& QE_MASK = 0 := by decide

/-- Claim C5 (amended): the tracked mode flag qpi_mode never moves
backward under any successful driver operation, and every operation only
appends bus transactions (nothing disarms the memory map); the driver
does, however, offer disable_quad, which clears the Quad-Enable bit. -/
theorem mode_monotonicity_amended :
    ∀ (op : Op) (env : Env) (fuel : Nat) (s t : FlashMemory),
      run op env fuel s = Res.ok t →
        (s.qpi_mode = true → t.qpi_mode = true) ∧ ∃ d, t.trace = s.trace ++ d := by
  intro op env fuel s t h
  obtain ⟨hq, hext⟩ := run_frame op env fuel s t h
  refine ⟨?_, hext⟩
  intro hs
  rw [hq]
  by_cases hc : op = Op.enter_qpi_mode ∨ op = Op.enable_mm
  · rw [if_pos hc]
  · rw [if_neg hc]
    exact hs

/-- Driver state already in QPI mode, for exercising monotonicity. -/
def sQ : FlashMemory := { qpi_mode := true, reads := 0, trace := [] }

theorem mode_monotonicity_witness :
    (enable_quad envQE sQ).qpi_mode = true ∧
    ∃ d, (enable_quad envQE sQ).trace = sQ.trace ++ d :=
  ⟨(mode_monotonicity_amended Op.enable_quad envQE 1 sQ (enable_quad envQE sQ) rfl).1 rfl,
   (mode_monotonicity_amended Op.enable_quad envQE 1 sQ (enable_quad envQE sQ) rfl).2⟩

/-- Claim C7: qpi_mode is false after construction, is set to true only by
the QPI-entry operation -- and there before the set-read-parameters write
is issued -- is left unchanged by every other operation (enable_mm counts
as QPI entry, which it performs as its first step), and in particular the
reset sequence does not clear it. -/
theorem qpi_flag_lifecycle :
    ∀ (env : Env) (fuel : Nat) (s : FlashMemory) (op : Op),
      (∀ t, FlashMemory.new env fuel = Res.ok t → t.qpi_mode = false) ∧
      (enter_qpi_mode env s).qpi_mode = true ∧
      (∃ s1, enter_qpi_mode env s = blocking_write [0x03 <<< 4] set_read_parameters_cfg s1 ∧
        s1.qpi_mode = true) ∧
      (∀ t, op ≠ Op.enter_qpi_mode → op ≠ Op.enable_mm → run op env fuel s = Res.ok t →
        t.qpi_mode = s.qpi_mode) ∧
      enable_mm env s = enable_memory_map mm_read_cfg (enter_qpi_mode env s) := by
  intro env fuel s op
  refine ⟨?_, ?_, ?_, ?_, rfl⟩
  · intro t h
    rw [FlashMemory.new] at h
    revert h
    cases hr : reset_memory env fuel { qpi_mode := false, reads := 0, trace := [] } with
    | ok u =>
      intro h
      cases h
      rw [reset_memory, reset_pre_eq] at hr
      obtain ⟨hq, _⟩ := wait_frame env fuel _ u hr
      rw [enable_quad_eq]
      exact hq
    | crash => intro h; cases h
    | fuel => intro h; cases h
  · rw [enter_qpi_mode_eq]
  · exact ⟨write_enable { blocking_command enter_qpi_cmd_cfg (qe_checked env s) with
      qpi_mode := true }, rfl, rfl⟩
  · intro t h1 h2 h
    obtain ⟨hq, _⟩ := run_frame op env fuel s t h
    rw [hq, if_neg (by simp [h1, h2])]

theorem qpi_flag_lifecycle_witness :
    (enable_quad envQE rC6).qpi_mode = false ∧ rC6.qpi_mode = s0.qpi_mode :=
  ⟨(qpi_flag_lifecycle envQE 1 s0 Op.reset_memory).1 (enable_quad envQE rC6) (by decide),
   (qpi_flag_lifecycle envQE 1 s0 Op.reset_memory).2.2.2.1 rC6 (by decide) (by decide) (by decide)⟩
